import Mathlib

/-!
Verification of the `awslabs.core_mcp_server` dispatcher
(`src/core-mcp-server/awslabs/core_mcp_server/server.py`).

The file embeds the three tool handlers of the server shallowly:

* `suggest_servers` is a pure function from a keyword list to a list of
  server identifiers; it is translated directly from the source.
* `get_prompt_understanding` returns the constant `PROMPT_UNDERSTANDING`.
* `require_server` performs three effectful calls into the external
  `fastmcp` framework (proxy construction, mounting, and the
  tool-list-changed notification).  The framework is out of scope, so each
  call's outcome is an input of the model (`Effects`), and the dispatcher's
  observable state (`DispatcherState`) is threaded explicitly.
-/

namespace AwsMcp

/-- Embedding of Python's `str.lower()` as used in `suggest_servers`
(server.py line 118): lowercase every character of the string. -/
def lower (s : String) : String := String.mk (s.data.map Char.toLower)

/-- The literal fallback list returned by the final branch of
`suggest_servers` (server.py lines 137-172), named here so the theorems can
refer to it. -/
def fullCatalog : List String :=
  [ "awslabs.amazon-kendra-index-mcp-server",
    "awslabs.amazon-mq-mcp-server",
    "awslabs.amazon-neptune-mcp-server",
    "awslabs.amazon-sns-sqs-mcp-server",
    "awslabs.aurora-dsql-mcp-server",
    "awslabs.aws-diagram-mcp-server",
    "awslabs.aws-documentation-mcp-server",
    "awslabs.aws-location-mcp-server",
    "awslabs.aws-serverless-mcp-server",
    "awslabs.aws-support-mcp-server",
    "awslabs.bedrock-kb-retrieval-mcp-server",
    "awslabs.cdk-mcp-server",
    "awslabs.cfn-mcp-server",
    "awslabs.cloudwatch-logs-mcp-server",
    "awslabs.code-doc-gen-mcp-server",
    "awslabs.core-mcp-server",
    "awslabs.cost-analysis-mcp-server",
    "awslabs.documentdb-mcp-server",
    "awslabs.dynamodb-mcp-server",
    "awslabs.ecs-mcp-server",
    "awslabs.eks-mcp-server",
    "awslabs.finch-mcp-server",
    "awslabs.frontend-mcp-server",
    "awslabs.git-repo-research-mcp-server",
    "awslabs.lambda-tool-mcp-server",
    "awslabs.mcp-lambda-handler",
    "awslabs.memcached-mcp-server",
    "awslabs.mysql-mcp-server",
    "awslabs.nova-canvas-mcp-server",
    "awslabs.postgres-mcp-server",
    "awslabs.stepfunctions-tool-mcp-server",
    "awslabs.syntheticdata-mcp-server",
    "awslabs.terraform-mcp-server",
    "awslabs.valkey-mcp-server" ]

/-- `suggest_servers` (server.py lines 106-172): lowercase every keyword,
then return the first matching curated pair for `eks`, `lambda`, or
`container`, falling back to the full catalog. -/
def suggest_servers (keywords : List String) : List String :=
  let keywords_ := keywords.map lower
  if "eks" ∈ keywords_ then
    [ "awslabs.eks-mcp-server",
      "awslabs.aws-serverless-mcp-server" ]
  else if "lambda" ∈ keywords_ then
    [ "awslabs.lambda-tool-mcp-server",
      "awslabs.mcp-lambda-handler" ]
  else if "container" ∈ keywords_ then
    [ "awslabs.ecs-mcp-server",
      "awslabs.finch-mcp-server" ]
  else
    fullCatalog

/-- Modelled from the spec: `PROMPT_UNDERSTANDING` is imported by server.py
from `awslabs.core_mcp_server.static`, a module not included in the sources.
The spec (§3 PromptGuidanceText) describes it as a single immutable string
constant; its exact content is immaterial to every claim, so a placeholder
body stands in for it here. -/
def PROMPT_UNDERSTANDING : String :=
  "MCP-CORE Prompt Understanding guidance text"

/-- `get_prompt_understanding` (server.py lines 68-74): takes no input and
returns the constant `PROMPT_UNDERSTANDING`. -/
def get_prompt_understanding : Unit → String :=
  fun _ => PROMPT_UNDERSTANDING

/-- The observable part of the proxied child server built by
`FastMCP.as_proxy`: the operation names it exposes. -/
structure Proxy where
  tools : List String

/-- Outcomes of the three effectful framework calls inside `require_server`
(server.py lines 88-100): `FastMCP.as_proxy` construction, `mcp.mount`, and
`session.send_tool_list_changed`.  Each either succeeds or raises an
exception carrying a message. -/
structure Effects where
  proxyResult : Except String Proxy
  mountResult : Except String Unit
  notifyResult : Except String Unit

/-- Dispatcher state: the operation registry (namespace, operation) pairs
accumulated by mounting, and the number of tool-list-changed notifications
sent on the calling session. -/
structure DispatcherState where
  registry : List (String × String)
  notificationsSent : Nat

/-- The message of the `ToolError` raised at server.py line 103:
an f-string interpolating the requested identifier and the cause. -/
def loadErrorMsg (server_name e : String) : String :=
  "Failed to require " ++ server_name ++ ". Error: " ++ e

/-- `require_server` (server.py lines 77-103): build the proxy, mount it
under the fixed namespace `"required"`, notify the session, and return
`"Success"`; any exception along the way is re-raised as a single
`ToolError` built by `loadErrorMsg`, with no rollback of completed steps. -/
def require_server (eff : Effects) (server_name : String) (st : DispatcherState) :
    Except String String × DispatcherState :=
  match eff.proxyResult with
  | .error e => (.error (loadErrorMsg server_name e), st)
  | .ok proxy_server =>
    match eff.mountResult with
    | .error e => (.error (loadErrorMsg server_name e), st)
    | .ok _ =>
      let mounted : DispatcherState :=
        ⟨st.registry ++ proxy_server.tools.map (fun t => ("required", t)),
         st.notificationsSent⟩
      match eff.notifyResult with
      | .error e => (.error (loadErrorMsg server_name e), mounted)
      | .ok _ => (.ok "Success", ⟨mounted.registry, mounted.notificationsSent + 1⟩)

/-- The first exception raised inside `require_server`, in the order the
source performs the three framework calls; `none` when every step succeeds. -/
def Effects.firstError (eff : Effects) : Option String :=
  match eff.proxyResult with
  | .error e => some e
  | .ok _ =>
    match eff.mountResult with
    | .error e => some e
    | .ok _ =>
      match eff.notifyResult with
      | .error e => some e
      | .ok _ => none

/-- An invocation of one of the three registered tools of the dispatcher. -/
inductive Call where
  | promptUnderstanding : Call
  | requireServer (eff : Effects) (server_name : String) : Call
  | suggestServers (keywords : List String) : Call

/-- A reply delivered back over the protocol: a text result, a list of
strings, or a tool-level error. -/
inductive Reply where
  | text (s : String) : Reply
  | strings (ss : List String) : Reply
  | err (msg : String) : Reply

/-- The dispatcher: routes a call to the matching registered handler and
returns the reply together with the updated state.  It is total: a failing
`require_server` yields `Reply.err`, never a crash. -/
def dispatch : Call → DispatcherState → Reply × DispatcherState
  | .promptUnderstanding, st => (.text (get_prompt_understanding ()), st)
  | .requireServer eff server_name, st =>
    match require_server eff server_name st with
    | (.ok v, st1) => (.text v, st1)
    | (.error m, st1) => (.err m, st1)
  | .suggestServers keywords, st => (.strings (suggest_servers keywords), st)

/-- Helper: if no keyword lowercases to `c`, then `c` is not among the
lowercased keywords. -/
theorem not_mem_map_lower (keywords : List String) (c : String)
    (h : ∀ kw ∈ keywords, lower kw ≠ c) : c ∉ keywords.map lower := by
  intro hmem
  rcases List.mem_map.mp hmem with ⟨kw, hkw, hlow⟩
  exact h kw hkw hlow

/-- C1: `suggest_servers` returns exactly the result of the fixed priority
rule chain, first match winning with no accumulation: after lowercasing
every keyword, `"eks"` present (any original case, any position) gives
exactly the eks pair; else `"lambda"` gives the lambda pair; else
`"container"` gives the container pair; otherwise the full fixed catalog. -/
theorem suggest_servers_priority_rule_chain (keywords : List String) :
    ("eks" ∈ keywords.map lower →
      suggest_servers keywords =
        ["awslabs.eks-mcp-server", "awslabs.aws-serverless-mcp-server"]) ∧
    ("eks" ∉ keywords.map lower → "lambda" ∈ keywords.map lower →
      suggest_servers keywords =
        ["awslabs.lambda-tool-mcp-server", "awslabs.mcp-lambda-handler"]) ∧
    ("eks" ∉ keywords.map lower → "lambda" ∉ keywords.map lower →
      "container" ∈ keywords.map lower →
      suggest_servers keywords =
        ["awslabs.ecs-mcp-server", "awslabs.finch-mcp-server"]) ∧
    ("eks" ∉ keywords.map lower → "lambda" ∉ keywords.map lower →
      "container" ∉ keywords.map lower →
      suggest_servers keywords = fullCatalog) := by
  refine ⟨fun h1 => ?_, fun h1 h2 => ?_, fun h1 h2 h3 => ?_, fun h1 h2 h3 => ?_⟩ <;>
    simp [suggest_servers, *]

/-- C1 witness: a mixed-case, mid-position `"EKS"` wins over a later
`"lambda"`. -/
theorem suggest_servers_priority_rule_chain_witness :
    suggest_servers ["Foo", "EKS", "lambda"] =
      ["awslabs.eks-mcp-server", "awslabs.aws-serverless-mcp-server"] :=
  (suggest_servers_priority_rule_chain ["Foo", "EKS", "lambda"]).1 (by decide)

/-- C2: whenever any of the three framework steps inside `require_server`
raises, `require_server` yields exactly one error whose message contains the
requested identifier and the cause's description; the failure is never
swallowed, and a subsequent `suggest_servers` dispatch still succeeds with
the state unchanged. -/
theorem require_server_surfaces_failures (eff : Effects) (server_name e : String)
    (st : DispatcherState) (h : eff.firstError = some e) :
    (require_server eff server_name st).1 =
        Except.error (loadErrorMsg server_name e) ∧
    (∃ a b, loadErrorMsg server_name e = a ++ server_name ++ b) ∧
    (∃ c, loadErrorMsg server_name e = c ++ e) ∧
    (∀ keywords st1,
      dispatch (Call.suggestServers keywords) st1 =
        (Reply.strings (suggest_servers keywords), st1)) := by
  refine ⟨?_, ⟨"Failed to require ", ". Error: " ++ e, by
      simp [loadErrorMsg, String.append_assoc]⟩,
    ⟨"Failed to require " ++ server_name ++ ". Error: ", rfl⟩, fun _ _ => rfl⟩
  unfold Effects.firstError at h
  rcases hpr : eff.proxyResult with e1 | p <;> rw [hpr] at h
  · obtain rfl : e1 = e := by simpa using h
    simp [require_server, hpr]
  · rcases hm : eff.mountResult with e2 | u <;> rw [hm] at h
    · obtain rfl : e2 = e := by simpa using h
      simp [require_server, hpr, hm]
    · rcases hn : eff.notifyResult with e3 | v <;> rw [hn] at h
      · obtain rfl : e3 = e := by simpa using h
        simp [require_server, hpr, hm, hn]
      · simp at h

/-- C2 witness: a failing proxy construction for a nonexistent identifier
surfaces as the structured error message. -/
theorem require_server_surfaces_failures_witness :
    (require_server ⟨Except.error "No such package", Except.ok (), Except.ok ()⟩
        "awslabs.nonexistent-server" ⟨[], 0⟩).1 =
      Except.error (loadErrorMsg "awslabs.nonexistent-server" "No such package") :=
  (require_server_surfaces_failures
    ⟨Except.error "No such package", Except.ok (), Except.ok ()⟩
    "awslabs.nonexistent-server" "No such package" ⟨[], 0⟩ rfl).1

/-- C3: when every step succeeds, `require_server` mounts the proxied
provider's operations under the fixed namespace `"required"`, increments the
notification count, and returns the literal `"Success"`; and no other
success value is ever returned on any input. -/
theorem require_server_success_mounts_then_notifies (eff : Effects) (p : Proxy)
    (server_name : String) (st : DispatcherState)
    (hp : eff.proxyResult = Except.ok p) (hm : eff.mountResult = Except.ok ())
    (hn : eff.notifyResult = Except.ok ()) :
    require_server eff server_name st =
      (Except.ok "Success",
        ⟨st.registry ++ p.tools.map (fun t => ("required", t)),
         st.notificationsSent + 1⟩) ∧
    (∀ eff1 name1 st1 v,
      (require_server eff1 name1 st1).1 = Except.ok v → v = "Success") := by
  constructor
  · simp [require_server, hp, hm, hn]
  · intro eff1 name1 st1 v hv
    unfold require_server at hv
    rcases h1 : eff1.proxyResult with e1 | p1 <;> rw [h1] at hv
    · simp at hv
    rcases h2 : eff1.mountResult with e2 | u2 <;> rw [h2] at hv
    · simp at hv
    rcases h3 : eff1.notifyResult with e3 | u3 <;> simp [h3] at hv
    exact hv.symm

/-- C3 witness: a concrete successful load of the eks server. -/
theorem require_server_success_mounts_then_notifies_witness :
    require_server ⟨Except.ok ⟨["list_clusters"]⟩, Except.ok (), Except.ok ()⟩
        "awslabs.eks-mcp-server" ⟨[], 0⟩ =
      (Except.ok "Success", ⟨[("required", "list_clusters")], 1⟩) :=
  (require_server_success_mounts_then_notifies
    ⟨Except.ok ⟨["list_clusters"]⟩, Except.ok (), Except.ok ()⟩
    ⟨["list_clusters"]⟩ "awslabs.eks-mcp-server" ⟨[], 0⟩ rfl rfl rfl).1

/-- C4: when no lowercased keyword is `"eks"`, `"lambda"` or `"container"`
(in particular for the empty list), `suggest_servers` returns the full fixed
catalog in declared order, which has no duplicates; the function is total by
construction. -/
theorem suggest_servers_fallback_total (keywords : List String)
    (h : ∀ kw ∈ keywords,
      lower kw ≠ "eks" ∧ lower kw ≠ "lambda" ∧ lower kw ≠ "container") :
    suggest_servers keywords = fullCatalog ∧
    suggest_servers [] = fullCatalog ∧
    fullCatalog.Nodup := by
  refine ⟨?_, rfl, by decide⟩
  have he := not_mem_map_lower keywords "eks" (fun kw hk => (h kw hk).1)
  have hl := not_mem_map_lower keywords "lambda" (fun kw hk => (h kw hk).2.1)
  have hc := not_mem_map_lower keywords "container" (fun kw hk => (h kw hk).2.2)
  simp [suggest_servers, he, hl, hc]

/-- C4 witness: two unmatched keywords fall through to the catalog. -/
theorem suggest_servers_fallback_total_witness :
    suggest_servers ["s3", "Database"] = fullCatalog :=
  (suggest_servers_fallback_total ["s3", "Database"] (by decide)).1

/-- C5: every identifier ever returned by `suggest_servers` is a member of
the fixed catalog; the matcher never emits a free-form string. -/
theorem suggest_servers_within_catalog (keywords : List String) :
    ∀ s ∈ suggest_servers keywords, s ∈ fullCatalog := by
  intro s hs
  simp only [suggest_servers] at hs
  split at hs
  · exact (by decide : ∀ x ∈ ["awslabs.eks-mcp-server",
      "awslabs.aws-serverless-mcp-server"], x ∈ fullCatalog) s hs
  split at hs
  · exact (by decide : ∀ x ∈ ["awslabs.lambda-tool-mcp-server",
      "awslabs.mcp-lambda-handler"], x ∈ fullCatalog) s hs
  split at hs
  · exact (by decide : ∀ x ∈ ["awslabs.ecs-mcp-server",
      "awslabs.finch-mcp-server"], x ∈ fullCatalog) s hs
  · exact hs

/-- C5 witness: the container suggestion is a catalog member. -/
theorem suggest_servers_within_catalog_witness :
    "awslabs.finch-mcp-server" ∈ fullCatalog :=
  suggest_servers_within_catalog ["Container"] "awslabs.finch-mcp-server" (by decide)

/-- C6: if the mount succeeded but the notification failed, `require_server`
reports the error while the mounted operations stay in the registry: no
rollback occurs. -/
theorem require_server_notify_failure_keeps_mount (eff : Effects) (p : Proxy)
    (server_name e : String) (st : DispatcherState)
    (hp : eff.proxyResult = Except.ok p) (hm : eff.mountResult = Except.ok ())
    (hn : eff.notifyResult = Except.error e) :
    require_server eff server_name st =
      (Except.error (loadErrorMsg server_name e),
        ⟨st.registry ++ p.tools.map (fun t => ("required", t)),
         st.notificationsSent⟩) := by
  simp [require_server, hp, hm, hn]

/-- C6 witness: a dropped session keeps the freshly mounted operation. -/
theorem require_server_notify_failure_keeps_mount_witness :
    require_server
        ⟨Except.ok ⟨["describe_stacks"]⟩, Except.ok (), Except.error "session closed"⟩
        "awslabs.cfn-mcp-server" ⟨[], 0⟩ =
      (Except.error (loadErrorMsg "awslabs.cfn-mcp-server" "session closed"),
        ⟨[("required", "describe_stacks")], 0⟩) :=
  require_server_notify_failure_keeps_mount
    ⟨Except.ok ⟨["describe_stacks"]⟩, Except.ok (), Except.error "session closed"⟩
    ⟨["describe_stacks"]⟩ "awslabs.cfn-mcp-server" "session closed" ⟨[], 0⟩ rfl rfl rfl

/-- C7: `get_prompt_understanding` is pure and idempotent: dispatching it
leaves the state untouched, every call returns the same constant
`PROMPT_UNDERSTANDING`, and any two calls agree byte for byte. -/
theorem get_prompt_understanding_pure_idempotent :
    (∀ st, dispatch Call.promptUnderstanding st = (Reply.text PROMPT_UNDERSTANDING, st)) ∧
    (∀ u, get_prompt_understanding u = PROMPT_UNDERSTANDING) ∧
    (∀ u v, get_prompt_understanding u = get_prompt_understanding v) :=
  ⟨fun _ => rfl, fun _ => rfl, fun _ _ => rfl⟩

/-- C8: matching is whole-string equality on lowercased keywords, not
substring containment: if no keyword lowercases exactly to `"eks"`,
`"lambda"` or `"container"`, the fallback catalog is returned even when a
keyword properly contains one of those strings. -/
theorem suggest_servers_whole_string_equality (keywords : List String)
    (h : ∀ kw ∈ keywords,
      lower kw ≠ "eks" ∧ lower kw ≠ "lambda" ∧ lower kw ≠ "container") :
    suggest_servers keywords = fullCatalog := by
  have he := not_mem_map_lower keywords "eks" (fun kw hk => (h kw hk).1)
  have hl := not_mem_map_lower keywords "lambda" (fun kw hk => (h kw hk).2.1)
  have hc := not_mem_map_lower keywords "container" (fun kw hk => (h kw hk).2.2)
  simp [suggest_servers, he, hl, hc]

/-- C8 witness: keywords that merely contain the trigger words as proper
substrings still fall through to the catalog. -/
theorem suggest_servers_whole_string_equality_witness :
    suggest_servers ["eks-cluster", "Containers", "AWSLambda"] = fullCatalog :=
  suggest_servers_whole_string_equality
    ["eks-cluster", "Containers", "AWSLambda"] (by decide)

/-- C9: the result depends only on the set of lowercased keywords (so it is
invariant under permutation, duplication and case changes), and it always
has exactly 2 or exactly 34 elements. -/
theorem suggest_servers_depends_on_lowered_set (ks1 ks2 : List String)
    (h12 : ∀ s ∈ ks1.map lower, s ∈ ks2.map lower)
    (h21 : ∀ s ∈ ks2.map lower, s ∈ ks1.map lower) :
    suggest_servers ks1 = suggest_servers ks2 ∧
    ((suggest_servers ks1).length = 2 ∨ (suggest_servers ks1).length = 34) := by
  constructor
  · simp only [suggest_servers]
    by_cases h1 : "eks" ∈ ks1.map lower
    · rw [if_pos h1, if_pos (h12 _ h1)]
    · rw [if_neg h1, if_neg (fun hx => h1 (h21 _ hx))]
      by_cases h2 : "lambda" ∈ ks1.map lower
      · rw [if_pos h2, if_pos (h12 _ h2)]
      · rw [if_neg h2, if_neg (fun hx => h2 (h21 _ hx))]
        by_cases h3 : "container" ∈ ks1.map lower
        · rw [if_pos h3, if_pos (h12 _ h3)]
        · rw [if_neg h3, if_neg (fun hx => h3 (h21 _ hx))]
  · simp only [suggest_servers]
    split
    · exact Or.inl rfl
    split
    · exact Or.inl rfl
    split
    · exact Or.inl rfl
    · exact Or.inr rfl

/-- C9 witness: reordering, duplicating and re-casing the keywords leaves
the suggestion unchanged. -/
theorem suggest_servers_depends_on_lowered_set_witness :
    suggest_servers ["EKS", "extra"] = suggest_servers ["extra", "eks", "EKS"] :=
  (suggest_servers_depends_on_lowered_set ["EKS", "extra"] ["extra", "eks", "EKS"]
    (by decide) (by decide)).1

/-- C10: the fallback catalog has exactly 34 identifiers, each starting with
`"awslabs."`, in strictly ascending lexicographic (codepoint) order, hence
pairwise distinct. -/
theorem fullCatalog_sorted_distinct_namespaced :
    fullCatalog.length = 34 ∧
    fullCatalog.all (fun s => ("awslabs.".data).isPrefixOf s.data) = true ∧
    List.Pairwise (fun a b => a.data < b.data) fullCatalog ∧
    fullCatalog.Nodup :=
  ⟨rfl, by decide, by decide, by decide⟩

end AwsMcp
